import Mathlib

/-!
Verification of the QPilot assembly-and-validation engine.

This file gives a shallow embedding of the core services of the repository:

* `backend/services/question_selection/question_service.py` (slot resolver),
* `backend/services/blueprint/blueprint_service.py` (content-plan synthesizer),
* `backend/services/question_verification/verify_paper.py` (document validator),
* `backend/websocket/manager.py` (progress channel),

and proves the behavioural properties claimed for them.  External
generative-text calls are modelled as function/value parameters: the embedded
code is parametric in the text the service returns (and, for the validator, in
the parsed outcome of the judge call).  Python `float` arithmetic is embedded
as exact rational arithmetic over `Rat`; Python's `round` (banker's rounding
on binary floats) is embedded as `round` on `Rat` — the two agree except at
exact half-way points in the last kept digit, which no property here exercises.
-/

namespace QPilot

/-! ### Slot resolver: `question_service.py` -/

/-- A historical question record, one entry of the `pyq_bank` list consumed by
`select_questions` (fields per the docstring of `select_questions`:
`{id, text, topic, subtopic, marks, bloom_level, year, module}`). -/
structure Pyq where
  id : String
  text : String
  topic : String
  subtopic : String
  module : String
  marks : Int
  bloom_level : String
  year : Int
deriving DecidableEq

/-- Python `str.strip()` on a list of characters: drop whitespace from both
ends. -/
def pyStrip (l : List Char) : List Char :=
  ((l.dropWhile Char.isWhitespace).reverse.dropWhile Char.isWhitespace).reverse

/-- `normalize(text)`: `text.lower().strip()` — lowercase and strip for
comparison. -/
def normalize (text : String) : String :=
  String.mk (pyStrip (text.data.map Char.toLower))

/-- `match_level_1`: exact match on topic + subtopic + marks + bloom_level. -/
def match_level_1 (pyq : Pyq) (topic subtopic : String) (marks : Int)
    (bloom_level : String) : Bool :=
  (normalize pyq.topic == normalize topic) &&
  (normalize pyq.subtopic == normalize subtopic) &&
  (pyq.marks == marks) &&
  (normalize pyq.bloom_level == normalize bloom_level)

/-- `match_level_2`: drop marks — topic + subtopic + bloom_level. -/
def match_level_2 (pyq : Pyq) (topic subtopic bloom_level : String) : Bool :=
  (normalize pyq.topic == normalize topic) &&
  (normalize pyq.subtopic == normalize subtopic) &&
  (normalize pyq.bloom_level == normalize bloom_level)

/-- `match_level_3`: drop marks + bloom — topic + subtopic only. -/
def match_level_3 (pyq : Pyq) (topic subtopic : String) : Bool :=
  (normalize pyq.topic == normalize topic) &&
  (normalize pyq.subtopic == normalize subtopic)

/-- `find_match(pyq_bank, used_pyq_ids, level=..., ...)`: scan the bank in
order, skipping already-used records, returning the first record matching at
the requested level.  In the source the unused criteria (`marks` at levels
2–3, `bloom_level` at level 3) are optional keyword arguments that the levels
which read them always receive; here they are passed unconditionally and
ignored by the levels that do not read them. -/
def find_match (pyq_bank : List Pyq) (used_pyq_ids : List String) (level : Nat)
    (topic subtopic : String) (marks : Int) (bloom_level : String) :
    Option Pyq :=
  match pyq_bank with
  | [] => none
  | pyq :: rest =>
    if pyq.id ∈ used_pyq_ids then
      find_match rest used_pyq_ids level topic subtopic marks bloom_level
    else if level == 1 && match_level_1 pyq topic subtopic marks bloom_level then
      some pyq
    else if level == 2 && match_level_2 pyq topic subtopic bloom_level then
      some pyq
    else if level == 3 && match_level_3 pyq topic subtopic then
      some pyq
    else
      find_match rest used_pyq_ids level topic subtopic marks bloom_level

/-- One question slot of a blueprint (`bp_q` in `select_questions`).  The
source reads `subtopic` and `is_pyq` with defaults `""`/`False`; in the typed
embedding the fields are always present. -/
structure BlueprintQuestion where
  question_number : String
  module : String
  topic : String
  subtopic : String
  marks : Int
  bloom_level : String
  is_pyq : Bool
  rationale : String
deriving DecidableEq

/-- One section of a blueprint. -/
structure BlueprintSection where
  section_name : String
  section_description : String
  questions : List BlueprintQuestion
deriving DecidableEq

/-- The `blueprint_metadata` dictionary, with the fields written by
`create_fallback_blueprint` (the only producer inside the embedded core);
`pyq_usage` is inlined into the last three fields. -/
structure BlueprintMetadata where
  total_marks : Int
  total_questions : Int
  bloom_distribution : List (String × Rat)
  module_distribution : List (String × Rat)
  actual_pyq_count : Int
  new_question_count : Int
  pyq_percentage : Rat
deriving DecidableEq

/-- A content plan ("blueprint"): metadata plus sections of question slots.
The free-text `strategy_notes` key is not read by any embedded code and is
omitted. -/
structure Blueprint where
  blueprint_metadata : BlueprintMetadata
  sections : List BlueprintSection
deriving DecidableEq

/-- A resolved question of the draft paper built by `select_questions`.  The
source also stores a random 8-character uuid under `"id"`; that value is
external randomness read by nothing in the embedded core and is omitted. -/
structure DraftQuestion where
  question_number : String
  module : String
  topic : String
  subtopic : String
  marks : Int
  bloom_level : String
  question_text : String
  selection_method : String
  source_pyq_id : Option String
  is_pyq_sourced : Bool
deriving DecidableEq

/-- The `stats` counters of `select_questions`. -/
structure SelectionStats where
  total_questions : Nat
  pyq_exact_match : Nat
  pyq_rephrased_marks : Nat
  pyq_rephrased_bloom : Nat
  generated_new : Nat
  direct_generated : Nat
deriving DecidableEq

/-- One entry of `selection_log`. -/
structure SelectionLogEntry where
  question_number : String
  method : String
  pyq_id : Option String
deriving DecidableEq

/-- One section of the draft paper. -/
structure DraftSection where
  section_name : String
  section_description : String
  questions : List DraftQuestion
deriving DecidableEq

/-- The draft paper returned by `select_questions` (`paper_id`, a random
12-character uuid, is omitted like the per-question uuid). -/
structure DraftPaper where
  blueprint_metadata : BlueprintMetadata
  sections : List DraftSection
  selection_stats : SelectionStats
  selection_log : List SelectionLogEntry
  used_pyq_ids : List String
deriving DecidableEq

/-- The mutable state threaded through the selection loop of
`select_questions`: the `used_pyq_ids` set (as a list), the `stats` counters
and the `selection_log`. -/
structure SelState where
  used : List String
  stats : SelectionStats
  log : List SelectionLogEntry

/-- The external generative-text service as seen by the slot resolver:
`rephrase_pyq(pyq_text, target_marks, topic, bloom_level)` and
`generate_new_question(topic, subtopic, module, marks, bloom_level,
question_number)` each return the text produced by the LLM. -/
structure GenService where
  rephrase_pyq : String → Int → String → String → String
  generate_new_question : String → String → String → Int → String → String → String

/-- Build the `draft_q` dictionary of `select_questions` from a blueprint slot,
the selected text, the selection method and the optional source record id
(`is_pyq_sourced` is `source_pyq_id is not None`). -/
def mkDraftQuestion (bp_q : BlueprintQuestion) (text method : String)
    (src : Option String) : DraftQuestion :=
  { question_number := bp_q.question_number
    module := bp_q.module
    topic := bp_q.topic
    subtopic := bp_q.subtopic
    marks := bp_q.marks
    bloom_level := bp_q.bloom_level
    question_text := text
    selection_method := method
    source_pyq_id := src
    is_pyq_sourced := src.isSome }

/-- The body of the inner loop of `select_questions` for one blueprint slot:
case A (`is_pyq=False`) generates directly; case B tries levels 1, 2, 3 and
falls back to generation.  Returns the draft question and the updated state. -/
def resolveSlot (svc : GenService) (pyq_bank : List Pyq) (st : SelState)
    (bp_q : BlueprintQuestion) : DraftQuestion × SelState :=
  let stats0 := { st.stats with total_questions := st.stats.total_questions + 1 }
  if bp_q.is_pyq = false then
    let text := svc.generate_new_question bp_q.topic bp_q.subtopic bp_q.module
      bp_q.marks bp_q.bloom_level bp_q.question_number
    (mkDraftQuestion bp_q text "generated_direct" none,
      { used := st.used
        stats := { stats0 with direct_generated := stats0.direct_generated + 1 }
        log := st.log ++ [{ question_number := bp_q.question_number,
                            method := "generated_direct", pyq_id := none }] })
  else
    match find_match pyq_bank st.used 1 bp_q.topic bp_q.subtopic bp_q.marks
        bp_q.bloom_level with
    | some m =>
      (mkDraftQuestion bp_q m.text "pyq_exact" (some m.id),
        { used := m.id :: st.used
          stats := { stats0 with pyq_exact_match := stats0.pyq_exact_match + 1 }
          log := st.log ++ [{ question_number := bp_q.question_number,
                              method := "pyq_exact", pyq_id := some m.id }] })
    | none =>
      match find_match pyq_bank st.used 2 bp_q.topic bp_q.subtopic bp_q.marks
          bp_q.bloom_level with
      | some m =>
        let text := svc.rephrase_pyq m.text bp_q.marks bp_q.topic bp_q.bloom_level
        (mkDraftQuestion bp_q text "pyq_rephrased_marks" (some m.id),
          { used := m.id :: st.used
            stats := { stats0 with pyq_rephrased_marks := stats0.pyq_rephrased_marks + 1 }
            log := st.log ++ [{ question_number := bp_q.question_number,
                                method := "pyq_rephrased_marks", pyq_id := some m.id }] })
      | none =>
        match find_match pyq_bank st.used 3 bp_q.topic bp_q.subtopic bp_q.marks
            bp_q.bloom_level with
        | some m =>
          let text := svc.rephrase_pyq m.text bp_q.marks bp_q.topic bp_q.bloom_level
          (mkDraftQuestion bp_q text "pyq_rephrased_bloom" (some m.id),
            { used := m.id :: st.used
              stats := { stats0 with pyq_rephrased_bloom := stats0.pyq_rephrased_bloom + 1 }
              log := st.log ++ [{ question_number := bp_q.question_number,
                                  method := "pyq_rephrased_bloom", pyq_id := some m.id }] })
        | none =>
          let text := svc.generate_new_question bp_q.topic bp_q.subtopic bp_q.module
            bp_q.marks bp_q.bloom_level bp_q.question_number
          (mkDraftQuestion bp_q text "generated_fallback" none,
            { used := st.used
              stats := { stats0 with generated_new := stats0.generated_new + 1 }
              log := st.log ++ [{ question_number := bp_q.question_number,
                                  method := "generated_fallback", pyq_id := none }] })

/-- The inner `for bp_q in section.get("questions", [])` loop of
`select_questions`, threading the selection state left to right. -/
def selectOverQuestions (svc : GenService) (pyq_bank : List Pyq) (st : SelState) :
    List BlueprintQuestion → List DraftQuestion × SelState
  | [] => ([], st)
  | q :: rest =>
    let r := resolveSlot svc pyq_bank st q
    let rr := selectOverQuestions svc pyq_bank r.2 rest
    (r.1 :: rr.1, rr.2)

/-- The outer `for section in blueprint.get("sections", [])` loop of
`select_questions`. -/
def selectOverSections (svc : GenService) (pyq_bank : List Pyq) (st : SelState) :
    List BlueprintSection → List DraftSection × SelState
  | [] => ([], st)
  | s :: rest =>
    let r := selectOverQuestions svc pyq_bank st s.questions
    let rr := selectOverSections svc pyq_bank r.2 rest
    ({ section_name := s.section_name
       section_description := s.section_description
       questions := r.1 } :: rr.1, rr.2)

/-- The initial `stats` dictionary of `select_questions` (all counters zero). -/
def initStats : SelectionStats :=
  { total_questions := 0, pyq_exact_match := 0, pyq_rephrased_marks := 0
    pyq_rephrased_bloom := 0, generated_new := 0, direct_generated := 0 }

/-- `select_questions(blueprint, pyq_bank)`: resolve every blueprint slot in
plan order against the bank, starting from an empty `used_pyq_ids` set, and
assemble the draft paper. -/
def select_questions (svc : GenService) (blueprint : Blueprint)
    (pyq_bank : List Pyq) : DraftPaper :=
  let r := selectOverSections svc pyq_bank
    { used := [], stats := initStats, log := [] } blueprint.sections
  { blueprint_metadata := blueprint.blueprint_metadata
    sections := r.1
    selection_stats := r.2.stats
    selection_log := r.2.log
    used_pyq_ids := r.2.used }

/-- All resolved questions of a draft paper, in document order. -/
def allDraftQuestions (paper : DraftPaper) : List DraftQuestion :=
  (paper.sections.map (fun s => s.questions)).flatten

/-! ### Content-plan synthesizer: `blueprint_service.py` -/

/-- One entry of the structural pattern's `sections` list.  The dictionary
keys `section_description`, `question_count` and `marks_per_question` are read
with `.get` (absent keys modelled as `none`). -/
structure PatternSection where
  section_name : String
  section_description : Option String
  question_count : Option Int
  marks_per_question : Option Int
deriving DecidableEq

/-- The structural `paper_pattern` dictionary, restricted to the keys the
embedded core reads: totals, allowed per-question marks (an empty list models
an absent/empty restriction), the module weightage range (absent bounds
modelled as `none`; the source defaults them to 0 and 1), and section shapes. -/
structure PaperPattern where
  total_marks : Int
  total_questions : Int
  allowed_marks_per_question : List Int
  module_weightage_min : Option Rat
  module_weightage_max : Option Rat
  sections : List PatternSection
deriving DecidableEq

/-- `create_fallback_blueprint(paper_pattern)`: the deterministic minimal
blueprint built when the LLM fails — per pattern section,
`question_count` (default 1) slots of `marks_per_question` (default 5) marks,
all on `Module 1 / General Topic / General Subtopic`, level `Understand`,
`is_pyq=False`; metadata copied from the pattern with a fixed bloom
distribution.  `range` of a non-positive count is empty, hence `.toNat`. -/
def create_fallback_blueprint (paper_pattern : PaperPattern) : Blueprint :=
  { blueprint_metadata :=
      { total_marks := paper_pattern.total_marks
        total_questions := paper_pattern.total_questions
        bloom_distribution :=
          [("Remember", 0.2), ("Understand", 0.3), ("Apply", 0.3),
           ("Analyze", 0.2), ("Evaluate", 0.0), ("Create", 0.0)]
        module_distribution := [("Module 1", 1.0)]
        actual_pyq_count := 0
        new_question_count := paper_pattern.total_questions
        pyq_percentage := 0.0 }
    sections := paper_pattern.sections.map (fun sp =>
      { section_name := sp.section_name
        section_description := sp.section_description.getD ""
        questions := (List.range (sp.question_count.getD 1).toNat).map (fun i =>
          { question_number := sp.section_name ++ "-Q" ++ toString (i + 1)
            module := "Module 1"
            topic := "General Topic"
            subtopic := "General Subtopic"
            marks := sp.marks_per_question.getD 5
            bloom_level := "Understand"
            is_pyq := false
            rationale := "Fallback" }) }) }

/-- Sum of the marks of all question slots of a blueprint (the `total_marks`
computation of `validate_blueprint`). -/
def blueprint_total_marks (bp : Blueprint) : Int :=
  ((bp.sections.map (fun s => ((s.questions.map (fun q => q.marks)).sum))).sum)

/-- Number of question slots of a blueprint (the `total_questions`
computation of `validate_blueprint`). -/
def blueprint_total_questions (bp : Blueprint) : Int :=
  ((bp.sections.map (fun s => (s.questions.length : Int))).sum)

/-- `validate_blueprint(blueprint, paper_pattern)`: non-fatal structural
validation, returning the list of mismatch messages.  The required-field loop
of the source can add nothing here because in the typed embedding every slot
carries all required fields. -/
def validate_blueprint (blueprint : Blueprint) (paper_pattern : PaperPattern) :
    List String :=
  (if blueprint_total_marks blueprint ≠ paper_pattern.total_marks then
    ["Total marks mismatch: Expected " ++ toString paper_pattern.total_marks ++
      ", got " ++ toString (blueprint_total_marks blueprint)]
  else []) ++
  (if blueprint_total_questions blueprint ≠ paper_pattern.total_questions then
    ["Total questions mismatch: Expected " ++ toString paper_pattern.total_questions ++
      ", got " ++ toString (blueprint_total_questions blueprint)]
  else [])

/-- The retry loop of `generate_blueprint`.  `parsed i` is the outcome of
attempt `i`'s parse phase — LLM call, markdown stripping, regex extraction,
`fix_incomplete_json` repair and the `'sections' in blueprint` structure
check: `some bp` if that phase produced a blueprint, `none` if it raised
`JSONDecodeError`/`ValueError`.  On success the blueprint is returned as
parsed (`validate_blueprint` mismatches are only printed as warnings); when
the remaining attempt budget is exhausted the deterministic fallback is
returned instead of raising. -/
def genAttempts (paper_pattern : PaperPattern) (parsed : Nat → Option Blueprint) :
    Nat → Nat → Blueprint
  | 0, _ => create_fallback_blueprint paper_pattern
  | n + 1, i =>
    match parsed i with
    | some bp => bp
    | none => genAttempts paper_pattern parsed n (i + 1)

/-- `generate_blueprint(...)` with `max_retries = 3`: up to three attempts,
then the deterministic fallback.  The prompt (and its per-retry tightening)
only influences what the external service returns, which is abstracted into
`parsed`. -/
def generate_blueprint (paper_pattern : PaperPattern)
    (parsed : Nat → Option Blueprint) : Blueprint :=
  genAttempts paper_pattern parsed 3 0

/-! ### Document validator: `verify_paper.py` -/

/-- A question of a paper under verification, with exactly the keys the
deterministic checks read. -/
structure PaperQuestion where
  question_number : String
  module : String
  topic : String
  subtopic : String
  marks : Int
  bloom_level : String
  question_text : String
deriving DecidableEq

/-- A section of a paper under verification. -/
structure PaperSection where
  section_name : String
  questions : List PaperQuestion
deriving DecidableEq

/-- A paper under verification (`paper["sections"]`). -/
structure Paper where
  sections : List PaperSection
deriving DecidableEq

/-- The `bloom_coverage` input: its `required_distribution` dictionary as an
association list in insertion order. -/
structure BloomCoverage where
  required_distribution : List (String × Rat)
deriving DecidableEq

/-- All questions of a paper, in document order (the
`for section ... for q in section["questions"]` iteration). -/
def paperQuestions (paper : Paper) : List PaperQuestion :=
  (paper.sections.map (fun s => s.questions)).flatten

/-- `sum(q["marks"] for section in paper["sections"] for q in ...)`. -/
def paper_total_marks (paper : Paper) : Int :=
  ((paperQuestions paper).map (fun q => q.marks)).sum

/-- Check 1, `check_marks_total`: total marks equal the pattern's target. -/
def check_marks_total (paper : Paper) (paper_pattern : PaperPattern) :
    Bool × String :=
  let total := paper_total_marks paper
  let expected := paper_pattern.total_marks
  if total = expected then
    (true, "Total marks: " ++ toString total ++ "/" ++ toString expected)
  else
    (false, "FAIL - Total marks " ++ toString total ++ " != expected " ++
      toString expected)

/-- Check 2, `check_question_count`: question count equals the target. -/
def check_question_count (paper : Paper) (paper_pattern : PaperPattern) :
    Bool × String :=
  let total := ((paper.sections.map (fun s => (s.questions.length : Int))).sum)
  let expected := paper_pattern.total_questions
  if total = expected then
    (true, "Question count: " ++ toString total ++ "/" ++ toString expected)
  else
    (false, "FAIL - " ++ toString total ++ " questions != expected " ++
      toString expected)

/-- The `pattern_sections` dictionary of `check_section_structure`
(`{s["section_name"]: s for s in ...}`): on duplicate names the later entry
overwrites the earlier one, hence the lookup scans the reversed list. -/
def patternSectionFor (paper_pattern : PaperPattern) (name : String) :
    Option PatternSection :=
  paper_pattern.sections.reverse.find? (fun s => s.section_name == name)

/-- Check 3, `check_section_structure`: per paper section, the section must be
known to the pattern, its question count must equal `question_count` when
that key is present (the source defaults the expectation to the actual count),
and every question must carry `marks_per_question` marks when that key is
present. -/
def check_section_structure (paper : Paper) (paper_pattern : PaperPattern) :
    Bool × String :=
  let issues := (paper.sections.map (fun sec =>
    match patternSectionFor paper_pattern sec.section_name with
    | none => ["Unknown section " ++ sec.section_name]
    | some pat =>
      let q_count : Int := sec.questions.length
      (if q_count ≠ pat.question_count.getD q_count then
        [sec.section_name ++ ": " ++ toString q_count ++
          " questions != expected " ++ toString (pat.question_count.getD q_count)]
      else []) ++
      sec.questions.filterMap (fun q =>
        match pat.marks_per_question with
        | some mpq =>
          if q.marks ≠ mpq then
            some ("Q" ++ q.question_number ++ " in " ++ sec.section_name ++
              ": " ++ toString q.marks ++ "M != expected " ++ toString mpq ++ "M")
          else none
        | none => none))).flatten
  (issues.isEmpty,
    if issues.isEmpty then "Section structure valid"
    else String.intercalate "; " issues)

/-- Check 4, `check_allowed_marks`: every question's marks value belongs to
the allowed set; an empty allowed list means no restriction. -/
def check_allowed_marks (paper : Paper) (paper_pattern : PaperPattern) :
    Bool × String :=
  if paper_pattern.allowed_marks_per_question.isEmpty then
    (true, "No allowed marks restriction defined")
  else
    let bad := (paperQuestions paper).filterMap (fun q =>
      if q.marks ∈ paper_pattern.allowed_marks_per_question then none
      else some ("Q" ++ q.question_number ++ "(" ++ toString q.marks ++ "M)"))
    (bad.isEmpty,
      if bad.isEmpty then "All marks from allowed values"
      else "Invalid mark values: " ++ String.intercalate ", " bad)

/-- Dictionary accumulation `d[k] = d.get(k, 0) + v` preserving insertion
order, as Python dicts do. -/
def bumpAssoc (l : List (String × Int)) (key : String) (v : Int) :
    List (String × Int) :=
  match l with
  | [] => [(key, v)]
  | (k, x) :: rest =>
    if k == key then (k, x + v) :: rest else (k, x) :: bumpAssoc rest key v

/-- Dictionary lookup `d.get(k)` on an association list. -/
def assocGet {α : Type} (l : List (String × α)) (key : String) : Option α :=
  (l.find? (fun kv => kv.1 == key)).map (fun kv => kv.2)

/-- The `module_marks` accumulation of `check_module_weightage`. -/
def moduleMarks (paper : Paper) : List (String × Int) :=
  (paperQuestions paper).foldl (fun acc q => bumpAssoc acc q.module q.marks) []

/-- Check 5, `check_module_weightage`: each module's share of the total marks
lies within the pattern's weight range (bounds defaulting to 0 and 1); a paper
of zero total marks fails outright.  The source's percentage formatting in the
issue messages is not reproduced digit by digit. -/
def check_module_weightage (paper : Paper) (paper_pattern : PaperPattern) :
    Bool × String :=
  let total_marks := paper_total_marks paper
  if total_marks = 0 then
    (false, "Total marks = 0, cannot compute weightage")
  else
    let min_w := paper_pattern.module_weightage_min.getD 0
    let max_w := paper_pattern.module_weightage_max.getD 1
    let issues := (moduleMarks paper).filterMap (fun mm =>
      let pct : Rat := (mm.2 : Rat) / (total_marks : Rat)
      if min_w ≤ pct ∧ pct ≤ max_w then none
      else some (mm.1 ++ ": weightage outside allowed range"))
    (issues.isEmpty,
      if issues.isEmpty then "Module weightages valid"
      else "Module weightage issues: " ++ String.intercalate "; " issues)

/-- The `bloom_marks` accumulation of `check_bloom_distribution`. -/
def bloomMarks (paper : Paper) : List (String × Int) :=
  (paperQuestions paper).foldl (fun acc q => bumpAssoc acc q.bloom_level q.marks) []

/-- Check 6, `check_bloom_distribution`: per required level, the share of the
total marks carried at that level must deviate from the required share by at
most the 0.07 tolerance; the sub-score is
`max(0, 1 - deviations / max(len(required), 1))`.  Returns
(score, message, actual distribution). -/
def check_bloom_distribution (paper : Paper) (bloom_coverage : BloomCoverage) :
    Rat × String × List (String × Rat) :=
  let required := bloom_coverage.required_distribution
  if required.isEmpty then
    (1, "No Bloom requirement defined", [])
  else
    let total_marks := paper_total_marks paper
    let actual : List (String × Rat) :=
      if total_marks ≠ 0 then
        required.map (fun r =>
          (r.1, (((assocGet (bloomMarks paper) r.1).getD 0 : Int) : Rat) /
            (total_marks : Rat)))
      else []
    let deviations := required.filterMap (fun r =>
      let act := (assocGet actual r.1).getD 0
      if |act - r.2| > 7 / 100 then
        some (r.1 ++ ": outside tolerance")
      else none)
    let score : Rat :=
      max 0 (1 - (deviations.length : Rat) / ((max required.length 1 : Nat) : Rat))
    (score,
      if deviations.isEmpty then "Bloom distribution within tolerance"
      else "Bloom deviations: " ++ String.intercalate "; " deviations,
      actual)

/-- Check 7, `check_duplicate_topics`: no two questions share the same
(topic, subtopic) pair, keyed as `topic__subtopic`. -/
def check_duplicate_topics (paper : Paper) : Bool × String :=
  let seen := (paperQuestions paper).foldl
    (fun acc q => bumpAssoc acc (q.topic ++ "__" ++ q.subtopic) 1) []
  let dupes := seen.filterMap (fun kv =>
    if kv.2 > 1 then some (kv.1.replace "__" "/") else none)
  (dupes.isEmpty,
    if dupes.isEmpty then "No duplicate topics"
    else "Repeated topic/subtopic: " ++ String.intercalate ", " dupes)

/-- Check 8, `check_question_text_present`: every question's text is non-empty
after stripping whitespace. -/
def check_question_text_present (paper : Paper) : Bool × String :=
  let missing := (paperQuestions paper).filterMap (fun q =>
    if pyStrip q.question_text.data = [] then some ("Q" ++ q.question_number)
    else none)
  (missing.isEmpty,
    if missing.isEmpty then "All questions have text"
    else "Missing question text: " ++ String.intercalate ", " missing)

/-- The parsed JSON returned by a successful `llm_judge` call. -/
structure JudgeOutcome where
  qualitative_scores : List (String × Rat)
  qualitative_issues : List String
  qualitative_suggestions : List String
  llm_notes : String
deriving DecidableEq

/-- The dictionary returned by `verify_question_paper`; `detailed_scores` is
flattened into the last five fields (the raw per-check detail strings, which
nothing downstream reads, are reconstructible from the checks above). -/
structure VerifyResult where
  rating : Rat
  verdict : String
  issues : List String
  suggestions : List String
  summary : String
  deterministic_score : Rat
  qualitative_avg : Rat
  qualitative_breakdown : List (String × Rat)
  bloom_score : Rat
  actual_bloom_distribution : List (String × Rat)
deriving DecidableEq

/-- Python's `round(x, n)` on the embedded rationals:
`round(x * 10^n) / 10^n`.  (CPython rounds binary floats half-to-even; the
two differ only at exact half-way points of the last kept digit.) -/
def round_to (n : Nat) (x : Rat) : Rat :=
  (round (x * ((10 : Rat) ^ n)) : Rat) / ((10 : Rat) ^ n)

/-- The `critical_pass` conjunction of `verify_question_paper`: checks 1
(marks total), 2 (question count) and 8 (question text). -/
def critical_pass (paper : Paper) (paper_pattern : PaperPattern) : Bool :=
  (check_marks_total paper paper_pattern).1 &&
  (check_question_count paper paper_pattern).1 &&
  (check_question_text_present paper).1

/-- The `soft_passes` sum of `verify_question_paper`: checks 3, 4, 5,
bloom sub-score ≥ 0.7, and 7. -/
def soft_passes (paper : Paper) (paper_pattern : PaperPattern)
    (bloom_coverage : BloomCoverage) : Nat :=
  (if (check_section_structure paper paper_pattern).1 then 1 else 0) +
  (if (check_allowed_marks paper paper_pattern).1 then 1 else 0) +
  (if (check_module_weightage paper paper_pattern).1 then 1 else 0) +
  (if (check_bloom_distribution paper bloom_coverage).1 ≥ 7 / 10 then 1 else 0) +
  (if (check_duplicate_topics paper).1 then 1 else 0)

/-- The deterministic score of `verify_question_paper`:
`(5.0 if critical_pass else 2.0) + 5.0 * soft_passes / soft_total` with
`soft_total = 5`. -/
def det_score (paper : Paper) (paper_pattern : PaperPattern)
    (bloom_coverage : BloomCoverage) : Rat :=
  (if critical_pass paper paper_pattern then 5 else 2) +
    5 * (soft_passes paper paper_pattern bloom_coverage : Rat) / 5

/-- `qual_avg` for a successful judge call:
`sum(scores.values()) / len(scores) if scores else 5.0`. -/
def qual_avg_of (scores : List (String × Rat)) : Rat :=
  if scores.isEmpty then 5 else ((scores.map (fun kv => kv.2)).sum) / (scores.length : Rat)

/-- The qualitative average used by `verify_question_paper`: the judge's
average on success, the deterministic score when the judge call raised after
its bounded retries (the `except` branch). -/
def qual_avg (paper : Paper) (paper_pattern : PaperPattern)
    (bloom_coverage : BloomCoverage) (judge : Option JudgeOutcome) : Rat :=
  match judge with
  | some j => qual_avg_of j.qualitative_scores
  | none => det_score paper paper_pattern bloom_coverage

/-- The final rating: `round(0.60 * det + 0.40 * qual, 2)` clamped to
`[0, 10]`. -/
def final_rating (paper : Paper) (paper_pattern : PaperPattern)
    (bloom_coverage : BloomCoverage) (judge : Option JudgeOutcome) : Rat :=
  max 0 (min 10 (round_to 2
    (0.60 * det_score paper paper_pattern bloom_coverage +
     0.40 * qual_avg paper paper_pattern bloom_coverage judge)))

/-- The verdict rule: rating ≥ 8 → ACCEPTED, else REJECTED. -/
def verdict_of (paper : Paper) (paper_pattern : PaperPattern)
    (bloom_coverage : BloomCoverage) (judge : Option JudgeOutcome) : String :=
  if final_rating paper paper_pattern bloom_coverage judge ≥ 8 then "ACCEPTED"
  else "REJECTED"

/-- The issue messages accumulated by the deterministic checks, in the order
the source appends them (each failing check contributes its message; the
bloom check contributes when its sub-score is below 0.7). -/
def det_issues (paper : Paper) (paper_pattern : PaperPattern)
    (bloom_coverage : BloomCoverage) : List String :=
  (if (check_marks_total paper paper_pattern).1 then []
    else [(check_marks_total paper paper_pattern).2]) ++
  (if (check_question_count paper paper_pattern).1 then []
    else [(check_question_count paper paper_pattern).2]) ++
  (if (check_section_structure paper paper_pattern).1 then []
    else [(check_section_structure paper paper_pattern).2]) ++
  (if (check_allowed_marks paper paper_pattern).1 then []
    else [(check_allowed_marks paper paper_pattern).2]) ++
  (if (check_module_weightage paper paper_pattern).1 then []
    else [(check_module_weightage paper paper_pattern).2]) ++
  (if (check_bloom_distribution paper bloom_coverage).1 < 7 / 10 then
    [(check_bloom_distribution paper bloom_coverage).2.1] else []) ++
  (if (check_duplicate_topics paper).1 then []
    else [(check_duplicate_topics paper).2]) ++
  (if (check_question_text_present paper).1 then []
    else [(check_question_text_present paper).2])

/-- The suggestion messages accumulated by the deterministic checks, in
source order. -/
def det_suggestions (paper : Paper) (paper_pattern : PaperPattern)
    (bloom_coverage : BloomCoverage) : List String :=
  (if (check_marks_total paper paper_pattern).1 then []
    else ["Adjust question marks so total equals " ++
      toString paper_pattern.total_marks]) ++
  (if (check_question_count paper paper_pattern).1 then []
    else ["Add or remove questions to reach exactly " ++
      toString paper_pattern.total_questions]) ++
  (if (check_section_structure paper paper_pattern).1 then []
    else ["Fix section structure to match paper pattern specification"]) ++
  (if (check_allowed_marks paper paper_pattern).1 then []
    else ["Use only allowed mark values"]) ++
  (if (check_module_weightage paper paper_pattern).1 then []
    else ["Redistribute questions to balance module weightages within allowed range"]) ++
  (if (check_bloom_distribution paper bloom_coverage).1 < 7 / 10 then
    ["Adjust question bloom levels to match required distribution"] else []) ++
  (if (check_duplicate_topics paper).1 then []
    else ["Replace duplicate topic questions with questions from uncovered topics"]) ++
  (if (check_question_text_present paper).1 then []
    else ["Ensure all questions have question text before submission"])

/-- The merge of the judge's qualitative issues into the issue list:
`if issue and issue not in issues: issues.append("[Quality] " + issue)`. -/
def mergeIssues (issues : List String) (llm_issues : List String) : List String :=
  llm_issues.foldl (fun acc issue =>
    if issue ≠ "" ∧ issue ∉ acc then acc ++ ["[Quality] " ++ issue] else acc)
    issues

/-- The merge of the judge's suggestions:
`if sug and sug not in suggestions: suggestions.append(sug)`. -/
def mergeSuggestions (suggestions : List String) (llm_suggestions : List String) :
    List String :=
  llm_suggestions.foldl (fun acc sug =>
    if sug ≠ "" ∧ sug ∉ acc then acc ++ [sug] else acc)
    suggestions

/-- `verify_question_paper(paper, ..., bloom_coverage, paper_pattern, ...)`.
The `syllabus`, `pyq_analysis`, `blueprint` and `teacher_input` arguments flow
only into the judge prompt; together with the judge call they are abstracted
into `judge`, the parsed outcome of `llm_judge` (`none` when the call raised
after its bounded retries).  Issues and suggestions are exposed only on a
REJECTED verdict. -/
def verify_question_paper (paper : Paper) (bloom_coverage : BloomCoverage)
    (paper_pattern : PaperPattern) (judge : Option JudgeOutcome) : VerifyResult :=
  let d := det_score paper paper_pattern bloom_coverage
  let q := qual_avg paper paper_pattern bloom_coverage judge
  let issues := match judge with
    | some j => mergeIssues (det_issues paper paper_pattern bloom_coverage)
        j.qualitative_issues
    | none => det_issues paper paper_pattern bloom_coverage
  let suggestions := match judge with
    | some j => mergeSuggestions (det_suggestions paper paper_pattern bloom_coverage)
        j.qualitative_suggestions
    | none => det_suggestions paper paper_pattern bloom_coverage
  let llm_notes := match judge with
    | some j => j.llm_notes
    | none => "LLM evaluation unavailable"
  let qual_scores := match judge with
    | some j => j.qualitative_scores
    | none => []
  let rating := final_rating paper paper_pattern bloom_coverage judge
  let verdict := verdict_of paper paper_pattern bloom_coverage judge
  { rating := rating
    verdict := verdict
    issues := if verdict == "REJECTED" then issues else []
    suggestions := if verdict == "REJECTED" then suggestions else []
    summary := "Paper rated " ++ toString rating ++ "/10 - " ++ verdict ++ ". " ++
      llm_notes
    deterministic_score := round_to 2 d
    qualitative_avg := round_to 2 q
    qualitative_breakdown := qual_scores
    bloom_score := round_to 2 (check_bloom_distribution paper bloom_coverage).1
    actual_bloom_distribution :=
      (check_bloom_distribution paper bloom_coverage).2.2.map
        (fun kv => (kv.1, round_to 3 kv.2)) }

/-! ### Progress channel: `websocket/manager.py` -/

/-- An accepted websocket connection, identified by an abstract handle. -/
structure WebSocket where
  handle : Nat
deriving DecidableEq

/-- The `ConnectionManager`: its `self.connections` dictionary mapping session
ids to websockets, as an association list in insertion order. -/
structure ConnectionManager where
  connections : List (String × WebSocket)
deriving DecidableEq

/-- A message written to a websocket by the manager.  The source serializes
the structured payloads with `json.dumps`; the embedding keeps them
structured.  `datetime.now()` enters as the `timestamp` argument. -/
inductive WsMessage where
  | text (payload : String)
  | progress (timestamp step status : String) (progress : Int) (details : String)
  | log (timestamp level message : String)
  | completion (timestamp : String) (success : Bool) (data : List (String × String))
deriving DecidableEq

/-- `session_id in self.connections` / `self.connections[session_id]`. -/
def connectionFor (m : ConnectionManager) (session_id : String) : Option WebSocket :=
  (m.connections.find? (fun kv => kv.1 == session_id)).map (fun kv => kv.2)

/-- Dictionary assignment `self.connections[session_id] = websocket`. -/
def setConnection (l : List (String × WebSocket)) (session_id : String)
    (ws : WebSocket) : List (String × WebSocket) :=
  match l with
  | [] => [(session_id, ws)]
  | (k, v) :: rest =>
    if k == session_id then (k, ws) :: rest
    else (k, v) :: setConnection rest session_id ws

/-- `connect(session_id, websocket)`: accept and register (the `await
websocket.accept()` transport effect is outside the embedding). -/
def connect (m : ConnectionManager) (session_id : String) (websocket : WebSocket) :
    ConnectionManager :=
  { connections := setConnection m.connections session_id websocket }

/-- `disconnect(session_id)`: `del self.connections[session_id]` guarded by a
membership test. -/
def disconnect (m : ConnectionManager) (session_id : String) : ConnectionManager :=
  { connections := m.connections.filter (fun kv => !(kv.1 == session_id)) }

/-- `send(session_id, message)` (legacy): send the raw text iff a connection
is registered for the session; otherwise do nothing.  Each publish operation
returns the (unmodified) manager together with the list of messages written. -/
def send (m : ConnectionManager) (session_id message : String) :
    ConnectionManager × List (WebSocket × WsMessage) :=
  match connectionFor m session_id with
  | some ws => (m, [(ws, WsMessage.text message)])
  | none => (m, [])

/-- `send_progress(session_id, step, status, progress, details)`. -/
def send_progress (m : ConnectionManager) (timestamp session_id step status : String)
    (progressPct : Int) (details : String) :
    ConnectionManager × List (WebSocket × WsMessage) :=
  match connectionFor m session_id with
  | some ws => (m, [(ws, WsMessage.progress timestamp step status progressPct details)])
  | none => (m, [])

/-- `send_log(session_id, level, message)`. -/
def send_log (m : ConnectionManager) (timestamp session_id level message : String) :
    ConnectionManager × List (WebSocket × WsMessage) :=
  match connectionFor m session_id with
  | some ws => (m, [(ws, WsMessage.log timestamp level message)])
  | none => (m, [])

/-- `send_completion(session_id, success, data)` with `data or {}` semantics
for the optional payload. -/
def send_completion (m : ConnectionManager) (timestamp session_id : String)
    (success : Bool) (data : Option (List (String × String))) :
    ConnectionManager × List (WebSocket × WsMessage) :=
  match connectionFor m session_id with
  | some ws => (m, [(ws, WsMessage.completion timestamp success (data.getD []))])
  | none => (m, [])

/-! ### Statement helpers and concrete instances used by the theorems below -/

/-- `LowerPadEq s t`: `t` is `s` up to letter case and surrounding whitespace —
after lowercasing, `t` is `s` (lowercased) with whitespace-only padding on
either side.  This is the precise sense in which a bank record's field may
"differ only in letter case or surrounding spaces" from a slot's field. -/
def LowerPadEq (s t : String) : Prop :=
  ∃ u w : List Char,
    (∀ c ∈ u, c.isWhitespace = true) ∧ (∀ c ∈ w, c.isWhitespace = true) ∧
    t.data.map Char.toLower = u ++ s.data.map Char.toLower ++ w

/-- A generative service returning fixed texts, for concrete runs. -/
def demo_svc : GenService :=
  { rephrase_pyq := fun _ _ _ _ => "rephrased question text"
    generate_new_question := fun _ _ _ _ _ _ => "generated question text" }

/-- A bank holding a subtopic-only (tier 3) match first and an exact (tier 1)
match second, for the same topic/subtopic. -/
def c2_bank : List Pyq :=
  [{ id := "pyq_a", text := "Subtopic-only match.", topic := "SQL",
     subtopic := "Joins", module := "Module 2", marks := 5,
     bloom_level := "Remember", year := 2021 },
   { id := "pyq_b", text := "Exact match.", topic := "SQL",
     subtopic := "Joins", module := "Module 2", marks := 10,
     bloom_level := "Understand", year := 2022 }]

/-- A prefer-historical slot that matches `pyq_b` exactly. -/
def c2_slot : BlueprintQuestion :=
  { question_number := "1", module := "Module 2", topic := "SQL",
    subtopic := "Joins", marks := 10, bloom_level := "Understand",
    is_pyq := true, rationale := "High PYQ availability" }

/-- The selection state at the start of a resolution pass. -/
def init_state : SelState := { used := [], stats := initStats, log := [] }

/-- A bank record whose topic and bloom level differ from slot values only in
case and surrounding whitespace. -/
def c10_pyq : Pyq :=
  { id := "pyq_x", text := "Explain BCNF.", topic := "  NORMALIZATION ",
    subtopic := "Normal Forms", module := "Module 3", marks := 10,
    bloom_level := "apply  ", year := 2022 }

/-- The sample structural pattern of the repository's test data (80 marks,
8 questions, two sections). -/
def demo_pattern : PaperPattern :=
  { total_marks := 80
    total_questions := 8
    allowed_marks_per_question := [5, 10, 15, 20]
    module_weightage_min := some 0.20
    module_weightage_max := some 0.30
    sections :=
      [{ section_name := "Section A", section_description := some "Short Answer",
         question_count := some 4, marks_per_question := some 5 },
       { section_name := "Section B", section_description := some "Long Answer",
         question_count := some 4, marks_per_question := some 15 }] }

/-- A structurally well-formed blueprint, as a successful LLM parse could
yield it, whose slots sum to 10 marks in 1 slot — far from the 80/8 targets. -/
def c5_bad_blueprint : Blueprint :=
  { blueprint_metadata :=
      { total_marks := 80, total_questions := 8, bloom_distribution := []
        module_distribution := [], actual_pyq_count := 0
        new_question_count := 0, pyq_percentage := 0 }
    sections :=
      [{ section_name := "Section A", section_description := ""
         questions :=
           [{ question_number := "1", module := "Module 1", topic := "T"
              subtopic := "S", marks := 10, bloom_level := "Remember"
              is_pyq := false, rationale := "only slot" }] }] }

/-- A pattern requiring 80 marks across 8 questions, with one named section
and no further per-section or allowed-marks restrictions. -/
def ex4_pattern : PaperPattern :=
  { total_marks := 80, total_questions := 8, allowed_marks_per_question := []
    module_weightage_min := none, module_weightage_max := none
    sections := [{ section_name := "Section A", section_description := none
                   question_count := none, marks_per_question := none }] }

/-- An 8-question paper summing to 78 marks (seven 10-mark questions and one
8-mark question), with every other deterministic check passing against
`ex4_pattern`. -/
def ex4_paper : Paper :=
  { sections :=
      [{ section_name := "Section A"
         questions :=
           [{ question_number := "1", module := "Module 1", topic := "T1",
              subtopic := "S1", marks := 10, bloom_level := "Apply",
              question_text := "Question one." },
            { question_number := "2", module := "Module 1", topic := "T2",
              subtopic := "S2", marks := 10, bloom_level := "Apply",
              question_text := "Question two." },
            { question_number := "3", module := "Module 1", topic := "T3",
              subtopic := "S3", marks := 10, bloom_level := "Apply",
              question_text := "Question three." },
            { question_number := "4", module := "Module 1", topic := "T4",
              subtopic := "S4", marks := 10, bloom_level := "Apply",
              question_text := "Question four." },
            { question_number := "5", module := "Module 1", topic := "T5",
              subtopic := "S5", marks := 10, bloom_level := "Apply",
              question_text := "Question five." },
            { question_number := "6", module := "Module 1", topic := "T6",
              subtopic := "S6", marks := 10, bloom_level := "Apply",
              question_text := "Question six." },
            { question_number := "7", module := "Module 1", topic := "T7",
              subtopic := "S7", marks := 10, bloom_level := "Apply",
              question_text := "Question seven." },
            { question_number := "8", module := "Module 1", topic := "T8",
              subtopic := "S8", marks := 8, bloom_level := "Apply",
              question_text := "Question eight." }] }] }

/-- No required bloom distribution (the bloom check then scores 1.0). -/
def empty_bloom : BloomCoverage := { required_distribution := [] }

/-- A judge outcome giving every dimension the maximal in-schema score 10. -/
def judge_all_ten : JudgeOutcome :=
  { qualitative_scores :=
      [("question_clarity", 10), ("syllabus_relevance", 10),
       ("difficulty_flow", 10), ("teacher_alignment", 10),
       ("overall_coherence", 10)]
    qualitative_issues := [], qualitative_suggestions := [], llm_notes := "Flawless." }

/-- A judge outcome giving every dimension 9. -/
def judge_all_nine : JudgeOutcome :=
  { qualitative_scores :=
      [("question_clarity", 9), ("syllabus_relevance", 9),
       ("difficulty_flow", 9), ("teacher_alignment", 9),
       ("overall_coherence", 9)]
    qualitative_issues := [], qualitative_suggestions := [], llm_notes := "Good paper." }

/-- A pattern requiring 20 marks across 2 questions in one section. -/
def ex6_pattern : PaperPattern :=
  { total_marks := 20, total_questions := 2, allowed_marks_per_question := []
    module_weightage_min := none, module_weightage_max := none
    sections := [{ section_name := "Section A", section_description := none
                   question_count := none, marks_per_question := none }] }

/-- A 2-question, 20-mark paper passing all eight deterministic checks
against `ex6_pattern`. -/
def ex6_paper : Paper :=
  { sections :=
      [{ section_name := "Section A"
         questions :=
           [{ question_number := "1", module := "Module 1", topic := "ER Modeling",
              subtopic := "ER Diagrams", marks := 10, bloom_level := "Apply",
              question_text := "Draw an ER diagram." },
            { question_number := "2", module := "Module 1", topic := "SQL",
              subtopic := "Joins", marks := 10, bloom_level := "Understand",
              question_text := "Explain SQL joins." }] }] }

/-- A manager with one registered session, none of them `"s1"`. -/
def ws_demo_manager : ConnectionManager :=
  { connections := [("other-session", { handle := 7 })] }

/-! ### Theorems -/

/-- C9: publishing to a session with no connected subscriber is a no-op: each
of the four publish operations returns without emitting any message and
leaves the connection registry unchanged; the message is dropped, not
queued. -/
theorem publish_without_subscriber_drops (m : ConnectionManager)
    (timestamp session_id step status level message payload details : String)
    (progressPct : Int) (success : Bool) (data : Option (List (String × String)))
    (h : connectionFor m session_id = none) :
    send m session_id payload = (m, []) ∧
    send_progress m timestamp session_id step status progressPct details = (m, []) ∧
    send_log m timestamp session_id level message = (m, []) ∧
    send_completion m timestamp session_id success data = (m, []) := by
  refine ⟨?_, ?_, ?_, ?_⟩ <;>
    simp [send, send_progress, send_log, send_completion, h]

/-- Witness for C9 at a concrete manager with a different session
registered. -/
theorem publish_without_subscriber_drops_witness :
    connectionFor ws_demo_manager "s1" = none ∧
    send ws_demo_manager "s1" "hello" = (ws_demo_manager, []) ∧
    send_progress ws_demo_manager "t0" "s1" "blueprint" "running" 10 "detail" =
      (ws_demo_manager, []) ∧
    send_log ws_demo_manager "t0" "s1" "info" "note" = (ws_demo_manager, []) ∧
    send_completion ws_demo_manager "t0" "s1" true none = (ws_demo_manager, []) := by
  have h : connectionFor ws_demo_manager "s1" = none := by decide
  have hmain := publish_without_subscriber_drops ws_demo_manager "t0" "s1"
    "blueprint" "running" "info" "note" "hello" "detail" 10 true none h
  exact ⟨h, hmain.1, hmain.2.1, hmain.2.2.1, hmain.2.2.2⟩

/-- C7: when every one of the first three parse attempts fails,
`generate_blueprint` returns the deterministic fallback blueprint instead of
raising; and the computation consults only the first three attempt outcomes
(it makes exactly 3 attempts). -/
theorem generate_blueprint_exhausts_then_fallback (paper_pattern : PaperPattern)
    (parsed parsed2 : Nat → Option Blueprint) :
    ((∀ i, i < 3 → parsed i = none) →
      generate_blueprint paper_pattern parsed =
        create_fallback_blueprint paper_pattern) ∧
    ((∀ i, i < 3 → parsed i = parsed2 i) →
      generate_blueprint paper_pattern parsed =
        generate_blueprint paper_pattern parsed2) := by
  constructor
  · intro h
    simp [generate_blueprint, genAttempts, h 0 (by omega), h 1 (by omega),
      h 2 (by omega)]
  · intro h
    simp [generate_blueprint, genAttempts, h 0 (by omega), h 1 (by omega),
      h 2 (by omega)]

/-- Witness for C7: with every attempt failing, the result is exactly the
fallback blueprint of the concrete pattern. -/
theorem generate_blueprint_exhausts_then_fallback_witness :
    (∀ i, i < 3 → (fun _ => (none : Option Blueprint)) i = none) ∧
    generate_blueprint demo_pattern (fun _ => none) =
      create_fallback_blueprint demo_pattern :=
  ⟨fun _ _ => rfl,
    (generate_blueprint_exhausts_then_fallback demo_pattern (fun _ => none)
      (fun _ => none)).1 (fun _ _ => rfl)⟩

/-- C5 counterexample: a blueprint whose slots sum to 10 marks in 1 slot,
against a pattern demanding 80 marks in 8 slots, is returned unchanged by
`generate_blueprint` when the first LLM parse succeeds — the mismatch is only
reported by `validate_blueprint`, never enforced. -/
theorem generate_blueprint_totals_counterexample :
    generate_blueprint demo_pattern (fun _ => some c5_bad_blueprint) =
      c5_bad_blueprint ∧
    blueprint_total_marks c5_bad_blueprint = 10 ∧
    demo_pattern.total_marks = 80 ∧
    blueprint_total_questions c5_bad_blueprint = 1 ∧
    demo_pattern.total_questions = 8 ∧
    validate_blueprint c5_bad_blueprint demo_pattern ≠ [] := by
  refine ⟨rfl, by decide, rfl, by decide, rfl, by decide⟩

/-- C5 amended: only the deterministic fallback path constrains the totals,
and only structurally: the fallback blueprint's slot marks sum to the sum over
pattern sections of `question_count × marks_per_question` (with the source's
defaults 1 and 5), and its slot count is the sum of the section question
counts.  These equal the pattern's stated targets exactly when the pattern's
section shapes are consistent with them. -/
theorem create_fallback_blueprint_totals (paper_pattern : PaperPattern) :
    blueprint_total_marks (create_fallback_blueprint paper_pattern) =
      ((paper_pattern.sections.map (fun sp =>
        ((sp.question_count.getD 1).toNat : Int) * sp.marks_per_question.getD 5)).sum) ∧
    blueprint_total_questions (create_fallback_blueprint paper_pattern) =
      ((paper_pattern.sections.map (fun sp =>
        ((sp.question_count.getD 1).toNat : Int))).sum) := by
  have hconst : ∀ (n : Nat) (m : Int), (((List.range n).map (fun _ => m)).sum) = (n : Int) * m := by
    intro n m
    induction n with
    | zero => simp
    | succ k ih =>
      rw [List.range_succ, List.map_append, List.sum_append, ih]
      push_cast
      ring_nf
      simp
  constructor
  · unfold blueprint_total_marks create_fallback_blueprint
    simp only [List.map_map]
    congr 1
    apply List.map_congr_left
    intro sp _
    simp [Function.comp_def, List.map_map, hconst]
  · unfold blueprint_total_questions create_fallback_blueprint
    simp only [List.map_map]
    congr 1
    apply List.map_congr_left
    intro sp _
    simp [Function.comp_def]

/-- Dropping leading whitespace ignores a whitespace-only prefix. -/
theorem dropWhile_ws_append (u y : List Char)
    (hu : ∀ c ∈ u, c.isWhitespace = true) :
    (u ++ y).dropWhile Char.isWhitespace = y.dropWhile Char.isWhitespace := by
  induction u with
  | nil => simp
  | cons c cs ih =>
    rw [List.cons_append, List.dropWhile_cons, hu c (by simp)]
    exact ih (fun d hd => hu d (by simp [hd]))

/-- `dropWhile` distributes over an append when it leaves part of the first
list. -/
theorem dropWhile_append_of_ne_nil {p : Char → Bool} {x : List Char}
    (w : List Char) (hx : x.dropWhile p ≠ []) :
    (x ++ w).dropWhile p = x.dropWhile p ++ w := by
  induction x with
  | nil => simp at hx
  | cons a l ih =>
    rw [List.cons_append]
    by_cases hpa : p a = true
    · rw [List.dropWhile_cons, if_pos hpa, List.dropWhile_cons, if_pos hpa]
      rw [List.dropWhile_cons, if_pos hpa] at hx
      exact ih hx
    · rw [List.dropWhile_cons, if_neg hpa, List.dropWhile_cons, if_neg hpa]
      simp

/-- Stripping ignores whitespace-only padding on both sides. -/
theorem pyStrip_pad (u x w : List Char)
    (hu : ∀ c ∈ u, c.isWhitespace = true)
    (hw : ∀ c ∈ w, c.isWhitespace = true) :
    pyStrip (u ++ x ++ w) = pyStrip x := by
  unfold pyStrip
  rw [List.append_assoc, dropWhile_ws_append u (x ++ w) hu]
  rcases hdx : x.dropWhile Char.isWhitespace with _ | ⟨a, l⟩
  · have hxws : ∀ c ∈ x, c.isWhitespace = true :=
      fun c hc => List.dropWhile_eq_nil_iff.mp hdx c hc
    rw [dropWhile_ws_append x w hxws, List.dropWhile_eq_nil_iff.mpr hw]
  · have hne : x.dropWhile Char.isWhitespace ≠ [] := by rw [hdx]; simp
    rw [dropWhile_append_of_ne_nil w hne, List.reverse_append,
      dropWhile_ws_append w.reverse (x.dropWhile Char.isWhitespace).reverse
        (fun c hc => hw c (List.mem_reverse.mp hc)), hdx]

/-- `normalize` is blind to letter case and surrounding whitespace. -/
theorem normalize_eq_of_lowerPadEq {s t : String} (h : LowerPadEq s t) :
    normalize t = normalize s := by
  obtain ⟨u, w, hu, hw, heq⟩ := h
  unfold normalize
  rw [heq, pyStrip_pad u _ w hu hw]

/-- C10: at every matching tier, the topic, subtopic and cognitive-level
comparisons are case-insensitive and ignore surrounding whitespace (both
sides are lowercased and stripped by `normalize`), while marks are compared
exactly: a record whose string fields differ from the slot's only in case or
padding matches at tiers 2 and 3 outright and at tier 1 exactly when the
marks agree, and any marks difference rules a tier-1 match out. -/
theorem match_comparisons_case_space_insensitive (p : Pyq)
    (topic subtopic : String) (marks : Int) (bloom_level : String) :
    ((LowerPadEq topic p.topic → LowerPadEq subtopic p.subtopic →
      LowerPadEq bloom_level p.bloom_level →
      (match_level_3 p topic subtopic = true ∧
       match_level_2 p topic subtopic bloom_level = true ∧
       (match_level_1 p topic subtopic marks bloom_level = true ↔
         p.marks = marks)))) ∧
    (p.marks ≠ marks → match_level_1 p topic subtopic marks bloom_level = false) := by
  constructor
  · intro ht hs hb
    have h1 := normalize_eq_of_lowerPadEq ht
    have h2 := normalize_eq_of_lowerPadEq hs
    have h3 := normalize_eq_of_lowerPadEq hb
    refine ⟨?_, ?_, ?_⟩ <;>
      simp [match_level_1, match_level_2, match_level_3, h1, h2, h3]
  · intro hne
    simp [match_level_1, hne]

/-- Witness for C10: a record whose topic is `"  NORMALIZATION "` and bloom
level `"apply  "` matches a slot asking for `"normalization"` / `"Apply"`;
tier 1 succeeds at the record's 10 marks and fails at 5 marks. -/
theorem match_comparisons_case_space_insensitive_witness :
    LowerPadEq "normalization" "  NORMALIZATION " ∧
    LowerPadEq "Normal forms" "Normal Forms" ∧
    LowerPadEq "Apply" "apply  " ∧
    match_level_3 c10_pyq "normalization" "Normal forms" = true ∧
    match_level_2 c10_pyq "normalization" "Normal forms" "Apply" = true ∧
    match_level_1 c10_pyq "normalization" "Normal forms" 10 "Apply" = true ∧
    c10_pyq.marks ≠ 5 ∧
    match_level_1 c10_pyq "normalization" "Normal forms" 5 "Apply" = false := by
  have ht : LowerPadEq "normalization" "  NORMALIZATION " :=
    ⟨[' ', ' '], [' '], by decide, by decide, by decide⟩
  have hs : LowerPadEq "Normal forms" "Normal Forms" :=
    ⟨[], [], by decide, by decide, by decide⟩
  have hb : LowerPadEq "Apply" "apply  " :=
    ⟨[], [' ', ' '], by decide, by decide, by decide⟩
  have hmain10 := (match_comparisons_case_space_insensitive c10_pyq
    "normalization" "Normal forms" 10 "Apply").1 ht hs hb
  have hmain5 := (match_comparisons_case_space_insensitive c10_pyq
    "normalization" "Normal forms" 5 "Apply").2 (by decide)
  exact ⟨ht, hs, hb, hmain10.1, hmain10.2.1, hmain10.2.2.mpr (by decide),
    by decide, hmain5⟩

/-- A record returned by `find_match` was not yet consumed. -/
theorem find_match_not_used {bank : List Pyq} {used : List String} {level : Nat}
    {topic subtopic : String} {marks : Int} {bloom_level : String} {p : Pyq}
    (h : find_match bank used level topic subtopic marks bloom_level = some p) :
    p.id ∉ used := by
  induction bank with
  | nil => simp [find_match] at h
  | cons q rest ih =>
    rw [find_match] at h
    split_ifs at h with h0 h1 h2 h3
    all_goals first
      | (exact ih h)
      | (cases h; exact h0)

/-- If the not-yet-consumed bank holds a tier-1 match, the level-1 scan finds
one (the first in bank order). -/
theorem find_match_level1_exists {bank : List Pyq} {used : List String}
    {topic subtopic : String} {marks : Int} {bloom_level : String}
    (h : ∃ p ∈ bank, p.id ∉ used ∧
      match_level_1 p topic subtopic marks bloom_level = true) :
    ∃ p, find_match bank used 1 topic subtopic marks bloom_level = some p ∧
      match_level_1 p topic subtopic marks bloom_level = true := by
  induction bank with
  | nil => obtain ⟨p, hp, _⟩ := h; simp at hp
  | cons q rest ih =>
    by_cases hq : q.id ∈ used
    · have hrest : ∃ p ∈ rest, p.id ∉ used ∧
          match_level_1 p topic subtopic marks bloom_level = true := by
        obtain ⟨p, hp, hpu, hpm⟩ := h
        rcases List.mem_cons.mp hp with rfl | hp
        · exact absurd hq hpu
        · exact ⟨p, hp, hpu, hpm⟩
      obtain ⟨p, hfind, hpm⟩ := ih hrest
      refine ⟨p, ?_, hpm⟩
      rw [find_match, if_pos hq]
      exact hfind
    · by_cases hm : match_level_1 q topic subtopic marks bloom_level = true
      · refine ⟨q, ?_, hm⟩
        rw [find_match, if_neg hq, if_pos (by simp [hm])]
      · have hrest : ∃ p ∈ rest, p.id ∉ used ∧
            match_level_1 p topic subtopic marks bloom_level = true := by
          obtain ⟨p, hp, hpu, hpm⟩ := h
          rcases List.mem_cons.mp hp with rfl | hp
          · exact absurd hpm hm
          · exact ⟨p, hp, hpu, hpm⟩
        obtain ⟨p, hfind, hpm⟩ := ih hrest
        refine ⟨p, ?_, hpm⟩
        rw [find_match, if_neg hq, if_neg (by simp [hm]),
          if_neg (by simp), if_neg (by simp)]
        exact hfind

/-- Case analysis on one slot resolution: either no record is consumed and no
source id is set, or exactly the id of a previously unused record is both set
as the source and added to the consumed set. -/
theorem resolveSlot_cases (svc : GenService) (bank : List Pyq) (st : SelState)
    (q : BlueprintQuestion) :
    ((resolveSlot svc bank st q).1.source_pyq_id = none ∧
      (resolveSlot svc bank st q).2.used = st.used) ∨
    (∃ a, (resolveSlot svc bank st q).1.source_pyq_id = some a ∧ a ∉ st.used ∧
      (resolveSlot svc bank st q).2.used = a :: st.used) := by
  unfold resolveSlot
  by_cases hq : q.is_pyq = false
  · left
    simp [hq, mkDraftQuestion]
  · rw [if_neg hq]
    rcases h1 : find_match bank st.used 1 q.topic q.subtopic q.marks q.bloom_level
      with _ | m1
    · rcases h2 : find_match bank st.used 2 q.topic q.subtopic q.marks q.bloom_level
        with _ | m2
      · rcases h3 : find_match bank st.used 3 q.topic q.subtopic q.marks q.bloom_level
          with _ | m3
        · left
          simp [h1, h2, h3, mkDraftQuestion]
        · right
          exact ⟨m3.id, by simp [h1, h2, h3, mkDraftQuestion],
            find_match_not_used h3, by simp [h1, h2, h3]⟩
      · right
        exact ⟨m2.id, by simp [h1, h2, mkDraftQuestion],
          find_match_not_used h2, by simp [h1, h2]⟩
    · right
      exact ⟨m1.id, by simp [h1, mkDraftQuestion],
        find_match_not_used h1, by simp [h1]⟩

/-- The at-most-once-reuse relation between two resolved questions: they never
cite the same source record. -/
def NoSharedSource (q1 q2 : DraftQuestion) : Prop :=
  ∀ a : String, q1.source_pyq_id = some a → q2.source_pyq_id ≠ some a

/-- Invariant of the per-section selection loop: the consumed set only grows,
every source id cited by an emitted question is fresh with respect to the
entry state and recorded in the exit state, and the emitted questions are
pairwise source-disjoint. -/
theorem selectOverQuestions_spec (svc : GenService) (bank : List Pyq) :
    ∀ (qs : List BlueprintQuestion) (st : SelState),
      (∀ x, x ∈ st.used → x ∈ (selectOverQuestions svc bank st qs).2.used) ∧
      (∀ dq, dq ∈ (selectOverQuestions svc bank st qs).1 → ∀ a,
        dq.source_pyq_id = some a →
        a ∉ st.used ∧ a ∈ (selectOverQuestions svc bank st qs).2.used) ∧
      List.Pairwise NoSharedSource (selectOverQuestions svc bank st qs).1 := by
  intro qs
  induction qs with
  | nil =>
    intro st
    refine ⟨fun x hx => ?_, fun dq hdq => ?_, ?_⟩ <;>
      simp_all [selectOverQuestions]
  | cons q rest ih =>
    intro st
    have hslot := resolveSlot_cases svc bank st q
    have hrest := ih (resolveSlot svc bank st q).2
    have hsub1 : ∀ x, x ∈ st.used → x ∈ (resolveSlot svc bank st q).2.used := by
      rcases hslot with ⟨_, heq⟩ | ⟨a, _, _, heq⟩ <;>
        (intro x hx; rw [heq]; simp [hx])
    have hout :
        selectOverQuestions svc bank st (q :: rest) =
          ((resolveSlot svc bank st q).1 ::
            (selectOverQuestions svc bank (resolveSlot svc bank st q).2 rest).1,
           (selectOverQuestions svc bank (resolveSlot svc bank st q).2 rest).2) := by
      simp [selectOverQuestions]
    refine ⟨?_, ?_, ?_⟩
    · intro x hx
      rw [hout]
      exact hrest.1 x (hsub1 x hx)
    · intro dq hdq a hsrc
      rw [hout] at hdq
      rcases List.mem_cons.mp hdq with rfl | hdq
      · rcases hslot with ⟨hnone, _⟩ | ⟨b, hsome, hbfresh, hbused⟩
        · rw [hnone] at hsrc; cases hsrc
        · rw [hsome] at hsrc
          cases hsrc
          refine ⟨hbfresh, ?_⟩
          rw [hout]
          exact hrest.1 a (by rw [hbused]; simp)
      · have h := hrest.2.1 dq hdq a hsrc
        refine ⟨fun hx => h.1 (hsub1 a hx), ?_⟩
        rw [hout]
        exact h.2
    · rw [hout]
      refine List.Pairwise.cons ?_ hrest.2.2
      intro dq hdq a hsrc hsrc2
      rcases hslot with ⟨hnone, _⟩ | ⟨b, hsome, hbfresh, hbused⟩
      · rw [hnone] at hsrc; cases hsrc
      · rw [hsome] at hsrc
        cases hsrc
        exact (hrest.2.1 dq hdq a hsrc2).1 (by rw [hbused]; simp)

/-- The same invariant lifted over the outer section loop, for the flattened
question list. -/
theorem selectOverSections_spec (svc : GenService) (bank : List Pyq) :
    ∀ (ss : List BlueprintSection) (st : SelState),
      (∀ x, x ∈ st.used → x ∈ (selectOverSections svc bank st ss).2.used) ∧
      (∀ dq, dq ∈ (((selectOverSections svc bank st ss).1.map
          (fun s => s.questions)).flatten) → ∀ a,
        dq.source_pyq_id = some a →
        a ∉ st.used ∧ a ∈ (selectOverSections svc bank st ss).2.used) ∧
      List.Pairwise NoSharedSource
        (((selectOverSections svc bank st ss).1.map (fun s => s.questions)).flatten) := by
  intro ss
  induction ss with
  | nil =>
    intro st
    refine ⟨fun x hx => ?_, fun dq hdq => ?_, ?_⟩ <;>
      simp_all [selectOverSections]
  | cons s rest ih =>
    intro st
    have hsec := selectOverQuestions_spec svc bank s.questions st
    have hrest := ih (selectOverQuestions svc bank st s.questions).2
    have hout :
        selectOverSections svc bank st (s :: rest) =
          ({ section_name := s.section_name
             section_description := s.section_description
             questions := (selectOverQuestions svc bank st s.questions).1 } ::
            (selectOverSections svc bank
              (selectOverQuestions svc bank st s.questions).2 rest).1,
           (selectOverSections svc bank
              (selectOverQuestions svc bank st s.questions).2 rest).2) := by
      simp [selectOverSections]
    have hflat :
        (((selectOverSections svc bank st (s :: rest)).1.map
          (fun t => t.questions)).flatten) =
          (selectOverQuestions svc bank st s.questions).1 ++
          (((selectOverSections svc bank
              (selectOverQuestions svc bank st s.questions).2 rest).1.map
            (fun t => t.questions)).flatten) := by
      rw [hout]
      simp
    refine ⟨?_, ?_, ?_⟩
    · intro x hx
      rw [hout]
      exact hrest.1 x (hsec.1 x hx)
    · intro dq hdq a hsrc
      rw [hflat] at hdq
      rw [hout]
      rcases List.mem_append.mp hdq with hdq | hdq
      · have h := hsec.2.1 dq hdq a hsrc
        exact ⟨h.1, hrest.1 a h.2⟩
      · have h := hrest.2.1 dq hdq a hsrc
        exact ⟨fun hx => h.1 (hsec.1 a hx), h.2⟩
    · rw [hflat]
      rw [List.pairwise_append]
      refine ⟨hsec.2.2, hrest.2.2, ?_⟩
      intro q1 hq1 q2 hq2 a hsrc1 hsrc2
      exact (hrest.2.1 q2 hq2 a hsrc2).1 ((hsec.2.1 q1 hq1 a hsrc1).2)

/-- C1: in the draft paper returned by `select_questions`, no bank-record
identifier appears as the `source_pyq_id` of more than one resolved question —
once a record is matched for one slot, it is excluded from the search for
every later slot of the same document. -/
theorem select_questions_no_source_reuse (svc : GenService)
    (blueprint : Blueprint) (pyq_bank : List Pyq) :
    List.Pairwise NoSharedSource
      (allDraftQuestions (select_questions svc blueprint pyq_bank)) := by
  have h := (selectOverSections_spec svc pyq_bank blueprint.sections
    { used := [], stats := initStats, log := [] }).2.2
  simpa [select_questions, allDraftQuestions] using h

/-- C2: for a prefer-historical slot, whenever the not-yet-consumed bank holds
a tier-1 (exact) match, the slot-resolution step of `select_questions` — of
which `selectOverQuestions` runs one instance per slot — resolves the slot
with the scanned-first such record's text verbatim, method `pyq_exact` and
that record as source, regardless of any matches at higher-numbered tiers. -/
theorem tier1_match_selected_exactly (svc : GenService) (bank : List Pyq)
    (st : SelState) (q : BlueprintQuestion) (rest : List BlueprintQuestion)
    (hq : q.is_pyq = true)
    (h : ∃ p ∈ bank, p.id ∉ st.used ∧
      match_level_1 p q.topic q.subtopic q.marks q.bloom_level = true) :
    ∃ p, find_match bank st.used 1 q.topic q.subtopic q.marks q.bloom_level = some p ∧
      match_level_1 p q.topic q.subtopic q.marks q.bloom_level = true ∧
      (resolveSlot svc bank st q).1.question_text = p.text ∧
      (resolveSlot svc bank st q).1.selection_method = "pyq_exact" ∧
      (resolveSlot svc bank st q).1.source_pyq_id = some p.id ∧
      (selectOverQuestions svc bank st (q :: rest)).1.head? =
        some (resolveSlot svc bank st q).1 := by
  obtain ⟨p, hfind, hm⟩ := find_match_level1_exists h
  refine ⟨p, hfind, hm, ?_, ?_, ?_, ?_⟩
  · unfold resolveSlot
    simp [hq, hfind, mkDraftQuestion]
  · unfold resolveSlot
    simp [hq, hfind, mkDraftQuestion]
  · unfold resolveSlot
    simp [hq, hfind, mkDraftQuestion]
  · simp [selectOverQuestions]

/-- Witness for C2: the bank lists a subtopic-only (tier 3) record before the
exact record, and the slot is still resolved with the exact record's text and
method `pyq_exact`. -/
theorem tier1_match_selected_exactly_witness :
    c2_slot.is_pyq = true ∧
    (∃ p ∈ c2_bank, p.id ∉ init_state.used ∧
      match_level_1 p c2_slot.topic c2_slot.subtopic c2_slot.marks
        c2_slot.bloom_level = true) ∧
    (∃ p, find_match c2_bank init_state.used 1 c2_slot.topic c2_slot.subtopic
        c2_slot.marks c2_slot.bloom_level = some p ∧
      match_level_1 p c2_slot.topic c2_slot.subtopic c2_slot.marks
        c2_slot.bloom_level = true ∧
      (resolveSlot demo_svc c2_bank init_state c2_slot).1.question_text = p.text ∧
      (resolveSlot demo_svc c2_bank init_state c2_slot).1.selection_method =
        "pyq_exact" ∧
      (resolveSlot demo_svc c2_bank init_state c2_slot).1.source_pyq_id =
        some p.id ∧
      (selectOverQuestions demo_svc c2_bank init_state (c2_slot :: [])).1.head? =
        some (resolveSlot demo_svc c2_bank init_state c2_slot).1) := by
  have hq : c2_slot.is_pyq = true := by decide
  have h : ∃ p ∈ c2_bank, p.id ∉ init_state.used ∧
      match_level_1 p c2_slot.topic c2_slot.subtopic c2_slot.marks
        c2_slot.bloom_level = true := by decide
  exact ⟨hq, h,
    tier1_match_selected_exactly demo_svc c2_bank init_state c2_slot [] hq h⟩

/-- At most five soft checks can pass. -/
theorem soft_passes_le_five (paper : Paper) (pattern : PaperPattern)
    (bc : BloomCoverage) : soft_passes paper pattern bc ≤ 5 := by
  have h : ∀ (c : Prop) [Decidable c], (if c then (1 : ℕ) else 0) ≤ 1 := by
    intro c _
    split <;> simp
  exact Nat.add_le_add (Nat.add_le_add (Nat.add_le_add (Nat.add_le_add
    (h _) (h _)) (h _)) (h _)) (h _)

/-- The deterministic score is the rational image of a natural number:
base (5 or 2) plus the soft-pass count. -/
theorem det_score_eq_nat (paper : Paper) (pattern : PaperPattern)
    (bc : BloomCoverage) :
    det_score paper pattern bc =
      (((if critical_pass paper pattern then 5 else 2) +
        soft_passes paper pattern bc : ℕ) : Rat) := by
  unfold det_score
  have h5 : (5:Rat) * ((soft_passes paper pattern bc : ℕ) : Rat) / 5 =
      ((soft_passes paper pattern bc : ℕ) : Rat) :=
    mul_div_cancel_left₀ _ (by norm_num)
  rw [h5]
  cases hc : critical_pass paper pattern <;> push_cast <;> simp

/-- Rounding fixes rational images of natural numbers. -/
theorem round_to_natCast (k n : ℕ) : round_to k ((n : Rat)) = (n : Rat) := by
  unfold round_to
  rw [show ((n : Rat) * (10:Rat) ^ k) = (((n * 10 ^ k : ℕ) : Rat)) by push_cast; ring]
  rw [round_natCast]
  push_cast
  rw [mul_div_assoc, div_self (by positivity), mul_one]

/-- `round_to` is monotone. -/
theorem round_to_mono (k : ℕ) {x y : Rat} (h : x ≤ y) :
    round_to k x ≤ round_to k y := by
  unfold round_to
  have hc : (0:Rat) < (10:Rat) ^ k := by positivity
  gcongr
  rw [round_eq, round_eq]
  apply Int.floor_le_floor
  have := mul_le_mul_of_nonneg_right h (le_of_lt hc)
  linarith

/-- The deterministic score is nonnegative. -/
theorem det_score_nonneg (paper : Paper) (pattern : PaperPattern)
    (bc : BloomCoverage) : 0 ≤ det_score paper pattern bc := by
  rw [det_score_eq_nat]
  positivity

/-- The deterministic score is at most 10. -/
theorem det_score_le_ten (paper : Paper) (pattern : PaperPattern)
    (bc : BloomCoverage) : det_score paper pattern bc ≤ 10 := by
  rw [det_score_eq_nat]
  have hk := soft_passes_le_five paper pattern bc
  have h : ((if critical_pass paper pattern then 5 else 2) +
      soft_passes paper pattern bc) ≤ 10 := by
    split <;> omega
  exact_mod_cast h

/-- The `deterministic_score` field stores the (rounded) deterministic score,
which rounding leaves unchanged. -/
theorem verify_deterministic_score_eq (paper : Paper) (bc : BloomCoverage)
    (pattern : PaperPattern) (judge : Option JudgeOutcome) :
    (verify_question_paper paper bc pattern judge).deterministic_score =
      det_score paper pattern bc := by
  have h : (verify_question_paper paper bc pattern judge).deterministic_score =
      round_to 2 (det_score paper pattern bc) := rfl
  rw [h, det_score_eq_nat, round_to_natCast]

/-- The `rating` field is the final rating. -/
theorem verify_rating_eq (paper : Paper) (bc : BloomCoverage)
    (pattern : PaperPattern) (judge : Option JudgeOutcome) :
    (verify_question_paper paper bc pattern judge).rating =
      final_rating paper pattern bc judge := rfl

/-- The `verdict` field is the verdict. -/
theorem verify_verdict_eq (paper : Paper) (bc : BloomCoverage)
    (pattern : PaperPattern) (judge : Option JudgeOutcome) :
    (verify_question_paper paper bc pattern judge).verdict =
      verdict_of paper pattern bc judge := rfl

/-- The `qualitative_avg` field stores the rounded qualitative average. -/
theorem verify_qual_avg_eq (paper : Paper) (bc : BloomCoverage)
    (pattern : PaperPattern) (judge : Option JudgeOutcome) :
    (verify_question_paper paper bc pattern judge).qualitative_avg =
      round_to 2 (qual_avg paper pattern bc judge) := rfl

/-- The exposed issue and suggestion lists on a successful judge call. -/
theorem verify_exposed_eq (paper : Paper) (bc : BloomCoverage)
    (pattern : PaperPattern) (j : JudgeOutcome) :
    (verify_question_paper paper bc pattern (some j)).issues =
      (if verdict_of paper pattern bc (some j) == "REJECTED" then
        mergeIssues (det_issues paper pattern bc) j.qualitative_issues
      else []) ∧
    (verify_question_paper paper bc pattern (some j)).suggestions =
      (if verdict_of paper pattern bc (some j) == "REJECTED" then
        mergeSuggestions (det_suggestions paper pattern bc) j.qualitative_suggestions
      else []) :=
  ⟨rfl, rfl⟩

/-- C3: the validator's deterministic score equals (5 if the three critical
checks — marks total, question count, non-empty question text — all pass,
else 2) plus 5 times the number of passing soft checks (section structure,
allowed marks, module weightage, bloom sub-score at least 0.7, no duplicate
topics) divided by 5, and this score always lies in [0, 10]. -/
theorem deterministic_score_formula (paper : Paper) (bc : BloomCoverage)
    (pattern : PaperPattern) (judge : Option JudgeOutcome) :
    (verify_question_paper paper bc pattern judge).deterministic_score =
      (if (check_marks_total paper pattern).1 = true ∧
          (check_question_count paper pattern).1 = true ∧
          (check_question_text_present paper).1 = true then (5:Rat) else 2) +
        5 * ((((if (check_section_structure paper pattern).1 then 1 else 0) +
          (if (check_allowed_marks paper pattern).1 then 1 else 0) +
          (if (check_module_weightage paper pattern).1 then 1 else 0) +
          (if (check_bloom_distribution paper bc).1 ≥ 7 / 10 then 1 else 0) +
          (if (check_duplicate_topics paper).1 then 1 else 0) : ℕ) : Rat)) / 5 ∧
    0 ≤ (verify_question_paper paper bc pattern judge).deterministic_score ∧
    (verify_question_paper paper bc pattern judge).deterministic_score ≤ 10 := by
  refine ⟨?_, ?_, ?_⟩
  · rw [verify_deterministic_score_eq]
    unfold det_score soft_passes
    congr 1
    apply if_congr ?_ rfl rfl
    simp [critical_pass, Bool.and_eq_true, and_assoc]
  · rw [verify_deterministic_score_eq]
    exact det_score_nonneg paper pattern bc
  · rw [verify_deterministic_score_eq]
    exact det_score_le_ten paper pattern bc

/-- C8: when the judge call fails after its bounded retries (for any raised
error), `verify_question_paper` still returns a verdict rather than
propagating: the qualitative average is substituted by the deterministic
score, the final rating equals the deterministic score (0.6·d + 0.4·d = d,
already in [0, 10] so clamping is vacuous), and the verdict is decided by
that score against the 8.0 threshold. -/
theorem judge_failure_degrades_to_deterministic (paper : Paper)
    (bc : BloomCoverage) (pattern : PaperPattern) :
    (verify_question_paper paper bc pattern none).qualitative_avg =
      (verify_question_paper paper bc pattern none).deterministic_score ∧
    (verify_question_paper paper bc pattern none).rating =
      (verify_question_paper paper bc pattern none).deterministic_score ∧
    (verify_question_paper paper bc pattern none).verdict =
      (if (verify_question_paper paper bc pattern none).deterministic_score ≥ 8
        then "ACCEPTED" else "REJECTED") := by
  have hq : qual_avg paper pattern bc none = det_score paper pattern bc := rfl
  have hretr : round_to 2 (det_score paper pattern bc) = det_score paper pattern bc := by
    rw [det_score_eq_nat, round_to_natCast]
  have hrat : final_rating paper pattern bc none = det_score paper pattern bc := by
    unfold final_rating
    rw [hq, show (0.60:Rat) * det_score paper pattern bc +
      0.40 * det_score paper pattern bc = det_score paper pattern bc by ring,
      hretr, min_eq_right (det_score_le_ten paper pattern bc),
      max_eq_right (det_score_nonneg paper pattern bc)]
  refine ⟨?_, ?_, ?_⟩
  · rw [verify_qual_avg_eq, hq, hretr, verify_deterministic_score_eq]
  · rw [verify_rating_eq, hrat, verify_deterministic_score_eq]
  · rw [verify_verdict_eq, verify_deterministic_score_eq]
    unfold verdict_of
    rw [hrat]

/-- C6: a document passing all eight deterministic checks (deterministic
score 10) whose qualitative judge averages 9.0 is rated
0.6×10 + 0.4×9 = 9.6, verdict ACCEPTED, and the returned issue and suggestion
lists are both empty (ACCEPTED verdicts suppress them). -/
theorem all_checks_pass_judge_nine_accepts (paper : Paper) (bc : BloomCoverage)
    (pattern : PaperPattern) (j : JudgeOutcome)
    (h1 : (check_marks_total paper pattern).1 = true)
    (h2 : (check_question_count paper pattern).1 = true)
    (h3 : (check_section_structure paper pattern).1 = true)
    (h4 : (check_allowed_marks paper pattern).1 = true)
    (h5 : (check_module_weightage paper pattern).1 = true)
    (h6 : (check_bloom_distribution paper bc).1 ≥ 7 / 10)
    (h7 : (check_duplicate_topics paper).1 = true)
    (h8 : (check_question_text_present paper).1 = true)
    (hj : qual_avg_of j.qualitative_scores = 9) :
    (verify_question_paper paper bc pattern (some j)).deterministic_score = 10 ∧
    (verify_question_paper paper bc pattern (some j)).rating = 48 / 5 ∧
    (verify_question_paper paper bc pattern (some j)).verdict = "ACCEPTED" ∧
    (verify_question_paper paper bc pattern (some j)).issues = [] ∧
    (verify_question_paper paper bc pattern (some j)).suggestions = [] := by
  have hcrit : critical_pass paper pattern = true := by
    simp [critical_pass, h1, h2, h8]
  have hsoft : soft_passes paper pattern bc = 5 := by
    simp [soft_passes, h3, h4, h5, h6, h7]
  have hdet : det_score paper pattern bc = 10 := by
    unfold det_score
    rw [hcrit, hsoft]
    norm_num
  have hq : qual_avg paper pattern bc (some j) = 9 := by
    simpa [qual_avg] using hj
  have hrat : final_rating paper pattern bc (some j) = 48 / 5 := by
    unfold final_rating
    rw [hdet, hq, show (0.60:Rat) * 10 + 0.40 * 9 = 48 / 5 by norm_num]
    unfold round_to
    rw [round_eq]
    norm_num
  have hv : verdict_of paper pattern bc (some j) = "ACCEPTED" := by
    unfold verdict_of
    rw [hrat]
    norm_num
  refine ⟨?_, ?_, ?_, ?_, ?_⟩
  · rw [verify_deterministic_score_eq, hdet]
  · rw [verify_rating_eq, hrat]
  · rw [verify_verdict_eq, hv]
  · rw [(verify_exposed_eq paper bc pattern j).1, hv]
    simp
  · rw [(verify_exposed_eq paper bc pattern j).2, hv]
    simp

/-- Witness for C6 at a concrete 2-question, 20-mark paper with an all-nines
judge. -/
theorem all_checks_pass_judge_nine_accepts_witness :
    (check_marks_total ex6_paper ex6_pattern).1 = true ∧
    (check_question_count ex6_paper ex6_pattern).1 = true ∧
    (check_section_structure ex6_paper ex6_pattern).1 = true ∧
    (check_allowed_marks ex6_paper ex6_pattern).1 = true ∧
    (check_module_weightage ex6_paper ex6_pattern).1 = true ∧
    (check_bloom_distribution ex6_paper empty_bloom).1 ≥ 7 / 10 ∧
    (check_duplicate_topics ex6_paper).1 = true ∧
    (check_question_text_present ex6_paper).1 = true ∧
    qual_avg_of judge_all_nine.qualitative_scores = 9 ∧
    (verify_question_paper ex6_paper empty_bloom ex6_pattern
      (some judge_all_nine)).rating = 48 / 5 ∧
    (verify_question_paper ex6_paper empty_bloom ex6_pattern
      (some judge_all_nine)).verdict = "ACCEPTED" ∧
    (verify_question_paper ex6_paper empty_bloom ex6_pattern
      (some judge_all_nine)).issues = [] ∧
    (verify_question_paper ex6_paper empty_bloom ex6_pattern
      (some judge_all_nine)).suggestions = [] := by
  have h1 : (check_marks_total ex6_paper ex6_pattern).1 = true := by decide
  have h2 : (check_question_count ex6_paper ex6_pattern).1 = true := by decide
  have h3 : (check_section_structure ex6_paper ex6_pattern).1 = true := by decide
  have h4 : (check_allowed_marks ex6_paper ex6_pattern).1 = true := by decide
  have h5 : (check_module_weightage ex6_paper ex6_pattern).1 = true := by
    norm_num [check_module_weightage, moduleMarks, paperQuestions,
      paper_total_marks, bumpAssoc, ex6_paper, ex6_pattern]
  have h6 : (check_bloom_distribution ex6_paper empty_bloom).1 ≥ 7 / 10 := by
    norm_num [check_bloom_distribution, empty_bloom]
  have h7 : (check_duplicate_topics ex6_paper).1 = true := by decide
  have h8 : (check_question_text_present ex6_paper).1 = true := by decide
  have hj : qual_avg_of judge_all_nine.qualitative_scores = 9 := by
    norm_num [qual_avg_of, judge_all_nine]
  have hmain := all_checks_pass_judge_nine_accepts ex6_paper empty_bloom
    ex6_pattern judge_all_nine h1 h2 h3 h4 h5 h6 h7 h8 hj
  exact ⟨h1, h2, h3, h4, h5, h6, h7, h8, hj, hmain.2.1, hmain.2.2.1,
    hmain.2.2.2.1, hmain.2.2.2.2⟩

/-- C4 counterexample: against a pattern requiring 80 marks in 8 questions, an
8-question paper summing to 78 marks with every other deterministic check
passing scores deterministic 7 — but with a qualitative outcome of all tens
(each dimension within the judge's [0,10] schema) the final rating is
0.6×7 + 0.4×10 = 8.2 ≥ 8 and the verdict is ACCEPTED, refuting "for every
qualitative-judge outcome the final rating is below 8 and the verdict is
REJECTED". -/
theorem marks_shortfall_can_still_accept :
    paper_total_marks ex4_paper = 78 ∧
    ex4_pattern.total_marks = 80 ∧
    ex4_pattern.total_questions = 8 ∧
    (check_marks_total ex4_paper ex4_pattern).1 = false ∧
    (check_question_count ex4_paper ex4_pattern).1 = true ∧
    (check_section_structure ex4_paper ex4_pattern).1 = true ∧
    (check_allowed_marks ex4_paper ex4_pattern).1 = true ∧
    (check_module_weightage ex4_paper ex4_pattern).1 = true ∧
    (check_bloom_distribution ex4_paper empty_bloom).1 ≥ 7 / 10 ∧
    (check_duplicate_topics ex4_paper).1 = true ∧
    (check_question_text_present ex4_paper).1 = true ∧
    (∀ kv ∈ judge_all_ten.qualitative_scores, 0 ≤ kv.2 ∧ kv.2 ≤ 10) ∧
    (verify_question_paper ex4_paper empty_bloom ex4_pattern
      (some judge_all_ten)).deterministic_score = 7 ∧
    (verify_question_paper ex4_paper empty_bloom ex4_pattern
      (some judge_all_ten)).rating = 41 / 5 ∧
    (verify_question_paper ex4_paper empty_bloom ex4_pattern
      (some judge_all_ten)).verdict = "ACCEPTED" := by
  have h1 : (check_marks_total ex4_paper ex4_pattern).1 = false := by decide
  have h3 : (check_section_structure ex4_paper ex4_pattern).1 = true := by decide
  have h4 : (check_allowed_marks ex4_paper ex4_pattern).1 = true := by decide
  have h5 : (check_module_weightage ex4_paper ex4_pattern).1 = true := by
    norm_num [check_module_weightage, moduleMarks, paperQuestions,
      paper_total_marks, bumpAssoc, ex4_paper, ex4_pattern]
  have h6 : (check_bloom_distribution ex4_paper empty_bloom).1 ≥ 7 / 10 := by
    norm_num [check_bloom_distribution, empty_bloom]
  have h7 : (check_duplicate_topics ex4_paper).1 = true := by decide
  have hcrit : critical_pass ex4_paper ex4_pattern = false := by
    simp [critical_pass, h1]
  have hsoft : soft_passes ex4_paper ex4_pattern empty_bloom = 5 := by
    simp [soft_passes, h3, h4, h5, h6, h7]
  have hdet : det_score ex4_paper ex4_pattern empty_bloom = 7 := by
    unfold det_score
    rw [hcrit, hsoft]
    norm_num
  have hq : qual_avg ex4_paper ex4_pattern empty_bloom (some judge_all_ten) = 10 := by
    norm_num [qual_avg, qual_avg_of, judge_all_ten]
  have hrat : final_rating ex4_paper ex4_pattern empty_bloom
      (some judge_all_ten) = 41 / 5 := by
    unfold final_rating
    rw [hdet, hq, show (0.60:Rat) * 7 + 0.40 * 10 = 41 / 5 by norm_num]
    unfold round_to
    rw [round_eq]
    norm_num
  have hv : verdict_of ex4_paper ex4_pattern empty_bloom
      (some judge_all_ten) = "ACCEPTED" := by
    unfold verdict_of
    rw [hrat]
    norm_num
  refine ⟨by decide, rfl, rfl, h1, by decide, h3, h4, h5, h6, h7, by decide,
    by norm_num [judge_all_ten], ?_, ?_, ?_⟩
  · rw [verify_deterministic_score_eq, hdet]
  · rw [verify_rating_eq, hrat]
  · rw [verify_verdict_eq, hv]

/-- C4 amended: against a pattern requiring 80 marks in 8 questions, a paper
summing to 78 marks fails the critical marks check, so base = 2 and the
deterministic score is at most 7; and for every qualitative outcome whose
average (5 by default when the score dictionary is empty) is at most 9, the
final rating stays below 8 and the verdict is REJECTED.  (For averages of
9.5 and above the 0.6/0.4 blend reaches 8, as the counterexample shows.) -/
theorem marks_shortfall_rejected_when_judge_at_most_nine (paper : Paper)
    (bc : BloomCoverage) (pattern : PaperPattern) (j : JudgeOutcome)
    (hpat : pattern.total_marks = 80)
    (_hq8 : pattern.total_questions = 8)
    (hsum : paper_total_marks paper = 78)
    (hj : qual_avg_of j.qualitative_scores ≤ 9) :
    critical_pass paper pattern = false ∧
    (verify_question_paper paper bc pattern (some j)).deterministic_score ≤ 7 ∧
    (verify_question_paper paper bc pattern (some j)).rating < 8 ∧
    (verify_question_paper paper bc pattern (some j)).verdict = "REJECTED" := by
  have hmt : (check_marks_total paper pattern).1 = false := by
    simp [check_marks_total, hsum, hpat]
  have hcrit : critical_pass paper pattern = false := by
    simp [critical_pass, hmt]
  have hdet_le : det_score paper pattern bc ≤ 7 := by
    rw [det_score_eq_nat, hcrit]
    have hk := soft_passes_le_five paper pattern bc
    exact_mod_cast by simpa using Nat.add_le_add_left hk 2
  have hq9 : qual_avg paper pattern bc (some j) ≤ 9 := by
    simpa [qual_avg] using hj
  have harg : 0.60 * det_score paper pattern bc +
      0.40 * qual_avg paper pattern bc (some j) ≤ 39 / 5 := by
    nlinarith [hdet_le, hq9]
  have h78 : round_to 2 ((39:Rat) / 5) = 39 / 5 := by
    unfold round_to
    rw [round_eq]
    norm_num
  have hround : round_to 2 (0.60 * det_score paper pattern bc +
      0.40 * qual_avg paper pattern bc (some j)) ≤ 39 / 5 := by
    calc round_to 2 (0.60 * det_score paper pattern bc +
        0.40 * qual_avg paper pattern bc (some j)) ≤ round_to 2 ((39:Rat) / 5) :=
          round_to_mono 2 harg
      _ = 39 / 5 := h78
  have hrat : final_rating paper pattern bc (some j) < 8 := by
    unfold final_rating
    apply max_lt (by norm_num)
    exact lt_of_le_of_lt (le_trans (min_le_right _ _) hround) (by norm_num)
  refine ⟨hcrit, ?_, ?_, ?_⟩
  · rw [verify_deterministic_score_eq]
    exact hdet_le
  · rw [verify_rating_eq]
    exact hrat
  · rw [verify_verdict_eq]
    unfold verdict_of
    rw [if_neg (not_le.mpr hrat)]

/-- Witness for the amended C4: the concrete 78-mark paper with an all-nines
judge is rated below 8 and REJECTED. -/
theorem marks_shortfall_rejected_witness :
    ex4_pattern.total_marks = 80 ∧
    ex4_pattern.total_questions = 8 ∧
    paper_total_marks ex4_paper = 78 ∧
    qual_avg_of judge_all_nine.qualitative_scores ≤ 9 ∧
    critical_pass ex4_paper ex4_pattern = false ∧
    (verify_question_paper ex4_paper empty_bloom ex4_pattern
      (some judge_all_nine)).deterministic_score ≤ 7 ∧
    (verify_question_paper ex4_paper empty_bloom ex4_pattern
      (some judge_all_nine)).rating < 8 ∧
    (verify_question_paper ex4_paper empty_bloom ex4_pattern
      (some judge_all_nine)).verdict = "REJECTED" := by
  have hj : qual_avg_of judge_all_nine.qualitative_scores ≤ 9 := by
    norm_num [qual_avg_of, judge_all_nine]
  have hmain := marks_shortfall_rejected_when_judge_at_most_nine ex4_paper
    empty_bloom ex4_pattern judge_all_nine rfl rfl (by decide) hj
  exact ⟨rfl, rfl, by decide, hj, hmain.1, hmain.2.1, hmain.2.2.1, hmain.2.2.2⟩

end QPilot
